import Mathlib

/-!
Shallow embedding of the steelwool conversation / tool-call orchestration core.

Source files embedded:
- `src/python/src/steelwool/_enums.py` (MessageRole, ContentType, StopReason)
- `src/python/src/steelwool/_types.py` (Message, PromptResponse, PromptResponseDelta,
  Tool, ToolCall)
- `src/python/src/steelwool/_context_builder.py` (ContextBuilder.add_message,
  ContextBuilder.send_streaming_with_callback)
- `src/python/src/steelwool/_unresolved_response.py` (UnresolvedResponse.resolve_tool_calls,
  UnresolvedResponse.resolve_tool_calls_recursively)

Modelling conventions:
- Python coroutines are modelled as pure functions; the provider adapter and the tool
  resolver are passed as function parameters, a tool resolver returning
  `Except.error e` models the Python callable raising an exception with message `e`,
  `Except.ok none` models it returning `None`, `Except.ok (some s)` returning string `s`.
- In-place mutation of the shared `ContextBuilder` is modelled by value passing: every
  operation returns the builder state it leaves behind.  A Python exception escaping a
  method is modelled by `PyOutcome.exn err hist`, which records the exception message
  together with the builder state at the moment the exception was raised, so that
  "history is not mutated by a raise" is a statable property.
- Observable effects that the claims quantify over are recorded as explicit traces:
  the list of deltas the streaming callback was invoked on, the number of provider
  round trips (`sends`), the list of tool calls handed to the tool resolver
  (`resolverLog`), and for each recursive re-prompt the triple
  (budget at entry, token_usage of the step, budget passed to the recursive call)
  (`chain`).
- `token_usage` and the token budget are Python ints, modelled as `Int`.
-/

namespace Steelwool

/-- `MessageRole` from `_enums.py`. -/
inductive MessageRole where
  | user
  | model
  | function
  | system
  | tool
deriving DecidableEq, Repr

/-- `ContentType` from `_enums.py`. -/
inductive ContentType where
  | text
deriving DecidableEq, Repr

/-- `StopReason` from `_enums.py`.  `null` is the enum member `StopReason.NULL`
(which is truthy in Python, being an enum member). -/
inductive StopReason where
  | stop
  | length
  | content_filter
  | tool_calls
  | null
deriving DecidableEq, Repr

/-- `ToolCall` from `_types.py`.  The `arguments : Dict[str, Any]` mapping is never
inspected by the core, so its values are modelled as strings. -/
structure ToolCall where
  id : String
  name : String
  arguments : List (String × String)
deriving DecidableEq, Repr

/-- `Message` from `_types.py`. -/
structure Message where
  role : MessageRole
  content : String
  content_type : ContentType
deriving DecidableEq, Repr

/-- `Tool` from `_types.py`.  The `schema : dict` field is never inspected by the
core, so it is modelled as a list of key/value strings. -/
structure Tool where
  name : String
  description : String
  toolSchema : List (String × String)
  required : Bool
deriving DecidableEq, Repr

/-- `PromptResponse` from `_types.py`.  The `tool_calls` field is used by every
consumer in the core as an optional list of tool calls (`None` by default). -/
structure PromptResponse where
  message : Message
  stop_reason : StopReason
  token_usage : Int
  tool_calls : Option (List ToolCall) := none
deriving DecidableEq, Repr

/-- `PromptResponseDelta` from `_types.py`. -/
structure PromptResponseDelta where
  content : String
  stop_reason : Option StopReason
  tool_call : Option ToolCall
deriving DecidableEq, Repr

/-- `ContextBuilder` from `_context_builder.py`: an ordered message history. -/
structure ContextBuilder where
  history : List Message
deriving DecidableEq, Repr

/-- `ContextBuilder.add_message`: pushes a message onto the end of the history. -/
def ContextBuilder.add_message (cb : ContextBuilder) (m : Message) : ContextBuilder :=
  ⟨cb.history ++ [m]⟩

/-- `UnresolvedResponse` from `_unresolved_response.py` (the spec's PendingReply). -/
structure UnresolvedResponse where
  prompt_response : PromptResponse
  context_builder : ContextBuilder
  tools : Option (List Tool) := none
  system_message : String
deriving DecidableEq, Repr

/-- A tool resolver (`ToolResolver` in `_types.py`): `Except.error e` models the
Python callable raising, `Except.ok none` models returning `None`. -/
abbrev ToolResolver : Type := ToolCall → Except String (Option String)

/-- A non-streaming provider adapter (`ProviderAdapter` in `_types.py`), modelled
as a pure function of the arguments `send` passes it. -/
abbrev ProviderAdapter : Type :=
  ContextBuilder → String → Int → Option (List Tool) → PromptResponse

/-- `ContextBuilder.send`: invokes the provider adapter on the current history and
wraps the response, the (shared) builder, the tool catalog and the system message
into an `UnresolvedResponse`.  Does not itself mutate the history. -/
def ContextBuilder.send (cb : ContextBuilder) (adapter : ProviderAdapter)
    (system_message : String) (max_tokens : Int) (tools : Option (List Tool)) :
    UnresolvedResponse :=
  ⟨adapter cb system_message max_tokens tools, cb, tools, system_message⟩

/-- Outcome of a Python method that may raise: `exn err hist` records the exception
message and the builder state at the moment of the raise. -/
inductive PyOutcome (α : Type) where
  | ok (val : α)
  | exn (err : String) (hist : ContextBuilder)
deriving DecidableEq, Repr

/- ------------------------------------------------------------------
   Streaming aggregator: `ContextBuilder.send_streaming_with_callback`
   ------------------------------------------------------------------ -/

/-- Loop state of `send_streaming_with_callback`: the accumulator variables
`response_content`, `response_stop_reason`, `response_token_usage`,
`response_tool_calls`, plus the trace of deltas the callback was invoked on. -/
structure StreamAgg where
  callbackLog : List PromptResponseDelta
  response_content : String
  response_stop_reason : StopReason
  response_token_usage : Int
  response_tool_calls : List ToolCall
deriving DecidableEq, Repr

/-- One iteration of the `async for delta in stream` loop body: invoke the callback
(recorded in the trace), append `delta.content`, collect a present `tool_call`,
and overwrite the stop reason when `delta.stop_reason` is present (any enum member
is truthy in Python, so every non-`None` value overwrites). -/
def streamStep (acc : StreamAgg) (delta : PromptResponseDelta) : StreamAgg :=
  { callbackLog := acc.callbackLog ++ [delta],
    response_content := acc.response_content ++ delta.content,
    response_stop_reason :=
      match delta.stop_reason with
      | some s => s
      | none => acc.response_stop_reason,
    response_token_usage := acc.response_token_usage,
    response_tool_calls :=
      match delta.tool_call with
      | some tc => acc.response_tool_calls ++ [tc]
      | none => acc.response_tool_calls }

/-- `ContextBuilder.send_streaming_with_callback`, with the adapter's (finite)
delta stream passed as a list.  Returns the trace of callback invocations together
with the `UnresolvedResponse` the method constructs. -/
def send_streaming_with_callback (cb : ContextBuilder) (tools : Option (List Tool))
    (system_message : String) (deltas : List PromptResponseDelta) :
    List PromptResponseDelta × UnresolvedResponse :=
  let agg := deltas.foldl streamStep ⟨[], "", .null, 0, []⟩
  let response_message : Message := ⟨.model, agg.response_content, .text⟩
  let prompt_response : PromptResponse :=
    ⟨response_message, agg.response_stop_reason, agg.response_token_usage,
      some agg.response_tool_calls⟩
  (agg.callbackLog, ⟨prompt_response, cb, tools, system_message⟩)

/-- Spec-side: the in-order concatenation of all delta contents. -/
def concatContents : List PromptResponseDelta → String
  | [] => ""
  | d :: ds => d.content ++ concatContents ds

/-- Spec-side: the first present (non-`None`) stop reason of the stream, if any.
This follows the spec sentence "capturing the first non-null stop_reason observed
across the stream". -/
def firstStop? : List PromptResponseDelta → Option StopReason
  | [] => none
  | d :: ds =>
    match d.stop_reason with
    | some s => some s
    | none => firstStop? ds

/-- Spec-side: the last present (non-`None`) stop reason of the stream, if any. -/
def lastStop? : List PromptResponseDelta → Option StopReason
  | [] => none
  | d :: ds =>
    match lastStop? ds with
    | some s => some s
    | none => d.stop_reason

lemma foldl_streamStep_callbackLog (ds : List PromptResponseDelta) :
    ∀ acc : StreamAgg, (ds.foldl streamStep acc).callbackLog = acc.callbackLog ++ ds := by
  induction ds with
  | nil => intro acc; simp
  | cons d ds ih =>
    intro acc
    simp only [List.foldl_cons, ih, streamStep, List.append_assoc, List.singleton_append]

lemma foldl_streamStep_content (ds : List PromptResponseDelta) :
    ∀ acc : StreamAgg,
      (ds.foldl streamStep acc).response_content =
        acc.response_content ++ concatContents ds := by
  induction ds with
  | nil => intro acc; simp [concatContents, String.append_empty]
  | cons d ds ih =>
    intro acc
    simp only [List.foldl_cons, ih, streamStep, concatContents, String.append_assoc]

lemma foldl_streamStep_usage (ds : List PromptResponseDelta) :
    ∀ acc : StreamAgg,
      (ds.foldl streamStep acc).response_token_usage = acc.response_token_usage := by
  induction ds with
  | nil => intro acc; rfl
  | cons d ds ih => intro acc; simp only [List.foldl_cons, ih, streamStep]

lemma foldl_streamStep_tool_calls (ds : List PromptResponseDelta) :
    ∀ acc : StreamAgg,
      (ds.foldl streamStep acc).response_tool_calls =
        acc.response_tool_calls ++ ds.filterMap PromptResponseDelta.tool_call := by
  induction ds with
  | nil => intro acc; simp
  | cons d ds ih =>
    intro acc
    cases hd : d.tool_call with
    | none =>
      simp only [List.foldl_cons, ih, streamStep, hd, List.filterMap_cons]
    | some tc =>
      simp only [List.foldl_cons, ih, streamStep, hd, List.filterMap_cons,
        List.append_assoc, List.singleton_append]

lemma foldl_streamStep_stop (ds : List PromptResponseDelta) :
    ∀ acc : StreamAgg,
      (ds.foldl streamStep acc).response_stop_reason =
        (lastStop? ds).getD acc.response_stop_reason := by
  induction ds with
  | nil => intro acc; rfl
  | cons d ds ih =>
    intro acc
    cases hlast : lastStop? ds with
    | some s =>
      simp only [List.foldl_cons, ih, lastStop?, hlast, Option.getD_some]
    | none =>
      cases hd : d.stop_reason with
      | some s =>
        simp only [List.foldl_cons, ih, lastStop?, hlast, hd, streamStep, Option.getD_some,
          Option.getD_none]
      | none =>
        simp only [List.foldl_cons, ih, lastStop?, hlast, hd, streamStep, Option.getD_none]

/-- The two-delta stream of the spec's streaming-aggregation example. -/
def helloDeltas : List PromptResponseDelta :=
  [⟨"Hel", none, none⟩, ⟨"lo", some .stop, none⟩]

/-- A stream with two present stop reasons, exposing first-vs-last. -/
def twoStopsDeltas : List PromptResponseDelta :=
  [⟨"a", some .stop, none⟩, ⟨"b", some .length, none⟩]

/-- Claim C1, counterexample: the aggregator does not keep the FIRST present
stop_reason of the stream.  On a stream whose deltas carry stop reasons `stop`
then `length`, the first present stop reason is `stop` but the synthesized
PromptResponse carries `length` (each present stop reason overwrites the
accumulator, so the last one wins). -/
theorem c1_first_stop_counterexample :
    firstStop? twoStopsDeltas = some StopReason.stop ∧
    (send_streaming_with_callback ⟨[]⟩ none "" twoStopsDeltas).2.prompt_response.stop_reason =
      StopReason.length ∧
    StopReason.length ≠ StopReason.stop := by
  refine ⟨rfl, rfl, by decide⟩

/-- Claim C1 (amended: the synthesized stop_reason is the LAST present stop_reason
observed across the stream, not the first): for every finite delta stream,
`send_streaming_with_callback` invokes the callback exactly once per delta in
stream order, and returns a PendingReply whose PromptResponse has content equal to
the in-order concatenation of the delta contents, role `model`, content type
`text`, tool_calls the ordered list of every present delta tool_call,
`token_usage = 0`, and stop_reason the last present stop_reason (defaulting to
`null`); on the spec's example stream the content is "Hello", the stop reason is
`stop`, and the callback fires exactly twice, in order. -/
theorem c1_streaming_aggregation (cb : ContextBuilder) (tools : Option (List Tool))
    (system_message : String) (deltas : List PromptResponseDelta) :
    (send_streaming_with_callback cb tools system_message deltas).1 = deltas ∧
    (send_streaming_with_callback cb tools system_message deltas).2.prompt_response =
      ⟨⟨.model, concatContents deltas, .text⟩, (lastStop? deltas).getD .null, 0,
        some (deltas.filterMap PromptResponseDelta.tool_call)⟩ ∧
    (send_streaming_with_callback cb tools system_message deltas).2.context_builder = cb ∧
    (send_streaming_with_callback ⟨[]⟩ none "" helloDeltas).2.prompt_response.message.content
      = "Hello" ∧
    (send_streaming_with_callback ⟨[]⟩ none "" helloDeltas).2.prompt_response.stop_reason
      = StopReason.stop ∧
    (send_streaming_with_callback ⟨[]⟩ none "" helloDeltas).1 = helloDeltas := by
  refine ⟨?_, ?_, rfl, by decide, rfl, rfl⟩
  · show (deltas.foldl streamStep ⟨[], "", .null, 0, []⟩).callbackLog = deltas
    rw [foldl_streamStep_callbackLog]
    simp
  · show (⟨⟨.model, (deltas.foldl streamStep ⟨[], "", .null, 0, []⟩).response_content, .text⟩,
        (deltas.foldl streamStep ⟨[], "", .null, 0, []⟩).response_stop_reason,
        (deltas.foldl streamStep ⟨[], "", .null, 0, []⟩).response_token_usage,
        some (deltas.foldl streamStep ⟨[], "", .null, 0, []⟩).response_tool_calls⟩ :
        PromptResponse) = _
    rw [foldl_streamStep_content, foldl_streamStep_stop, foldl_streamStep_usage,
      foldl_streamStep_tool_calls]
    simp [String.empty_append]

/-- Claim C10: on the empty delta stream, `send_streaming_with_callback` never
invokes the callback and synthesizes a PromptResponse with role `model`, empty
content, content type `text`, stop_reason `null`, `token_usage = 0` and an empty
tool_calls list. -/
theorem c10_empty_stream (cb : ContextBuilder) (tools : Option (List Tool))
    (system_message : String) :
    send_streaming_with_callback cb tools system_message [] =
      ([], ⟨⟨⟨.model, "", .text⟩, .null, 0, some []⟩, cb, tools, system_message⟩) := rfl

/- ------------------------------------------------------------------
   Single-pass resolution: `UnresolvedResponse.resolve_tool_calls`
   ------------------------------------------------------------------ -/

/-- The `for tc in self.prompt_response.tool_calls` loop of `resolve_tool_calls`:
threads the `tool_response` accumulator, appending `result + "\n"` for each truthy
(non-`None`, non-empty) resolver result, stopping with the exception when the
resolver raises.  Also returns the list of tool calls the resolver was invoked on.
`truthyAppend` is the loop body's `if result:` update: append `result + "\n"` when
the result is truthy (neither `None` nor the empty string). -/
def truthyAppend (acc : String) (result : Option String) : String :=
  match result with
  | some s => if s = "" then acc else acc ++ s ++ "\n"
  | none => acc

def runBatch (resolver : ToolResolver) :
    List ToolCall → String → Except String String × List ToolCall
  | [], acc => (.ok acc, [])
  | tc :: rest, acc =>
    match resolver tc with
    | .error e => (.error e, [tc])
    | .ok result =>
      ((runBatch resolver rest (truthyAppend acc result)).1,
        tc :: (runBatch resolver rest (truthyAppend acc result)).2)

/-- Result of `resolve_tool_calls`: the outcome (final builder state, or exception
with the builder state at the raise) plus the trace of resolver invocations.
Note the Python method ends with `return self` (the `UnresolvedResponse`), despite
its `-> ContextBuilder` annotation; this model returns the builder state the call
leaves behind. -/
structure CallOut where
  res : PyOutcome ContextBuilder
  resolverLog : List ToolCall
deriving DecidableEq, Repr

/-- The message of the `TypeError` Python raises when `resolve_tool_calls` iterates
a `tool_calls` field that is `None`. -/
def typeErrorMsg : String := "TypeError: NoneType object is not iterable"

/-- `UnresolvedResponse.resolve_tool_calls`: appends the provider message, then —
only when the stop reason is NOT `tool_calls` (the polarity of the source) —
iterates `tool_calls` (raising `TypeError` when the field is `None`), accumulating
truthy resolver results each followed by a newline; finally appends exactly one
tool-role message holding the accumulated text. -/
def resolve_tool_calls (resolver : ToolResolver) (u : UnresolvedResponse) : CallOut :=
  let h1 := u.context_builder.add_message u.prompt_response.message
  if u.prompt_response.stop_reason ≠ StopReason.tool_calls then
    match u.prompt_response.tool_calls with
    | none => ⟨.exn typeErrorMsg h1, []⟩
    | some tcs =>
      match runBatch resolver tcs "" with
      | (.error e, log) => ⟨.exn e h1, log⟩
      | (.ok tool_response, log) =>
        ⟨.ok (h1.add_message ⟨.tool, tool_response, .text⟩), log⟩
  else
    ⟨.ok (h1.add_message ⟨.tool, "", .text⟩), []⟩

/- ------------------------------------------------------------------
   Recursive resolution: `UnresolvedResponse.resolve_tool_calls_recursively`
   ------------------------------------------------------------------ -/

/-- The message of the exception raised when a `null` stop reason reaches the
recursive resolver. -/
def nullStopMsg : String :=
  "Unexpected StopReason.NULL encountered during tool call resolution"

/-- The `tool_response` accumulator of the recursive resolver after the single loop
iteration that executes: `result + "\n"` when the resolver result `is not None`
(note: unlike the single-pass resolver, an empty string IS appended here),
otherwise the empty accumulator. -/
def toolResponseOf : Option String → String
  | some s => s ++ "\n"
  | none => ""

/-- Result of `resolve_tool_calls_recursively`: the outcome, the number of provider
round trips performed (`sends`), the trace of resolver invocations, and for each
step that re-prompted, the triple (budget at entry, token_usage of the step,
budget passed to the recursive call). -/
structure RecOut where
  res : PyOutcome ContextBuilder
  sends : Nat
  resolverLog : List ToolCall
  chain : List (Int × Int × Int)
deriving DecidableEq, Repr

/-- `UnresolvedResponse.resolve_tool_calls_recursively`.  Structural recursion on
`tool_reprompt_death`, so the model is total by construction — exactly the
source's well-foundedness argument (each recursive call passes
`tool_reprompt_death - 1`).  On `stop_reason == TOOL_CALLS` with a non-empty
batch, the source's `for` loop returns inside its first iteration: only the first
tool call is resolved, the provider message and one tool message are appended,
one `send` is issued at the unchanged `max_tokens`, and the recursion continues
with `max_tokens - token_usage`. -/
def resolve_tool_calls_recursively (resolver : ToolResolver) (adapter : ProviderAdapter) :
    Nat → Int → UnresolvedResponse → RecOut
  | 0, _, u =>
    ⟨.ok (u.context_builder.add_message u.prompt_response.message), 0, [], []⟩
  | tool_reprompt_death + 1, max_tokens, u =>
    if max_tokens ≤ 0 then
      ⟨.ok (u.context_builder.add_message u.prompt_response.message), 0, [], []⟩
    else
      match u.prompt_response.stop_reason with
      | .stop | .length | .content_filter =>
        ⟨.ok (u.context_builder.add_message u.prompt_response.message), 0, [], []⟩
      | .tool_calls =>
        match u.prompt_response.tool_calls with
        | none => ⟨.ok u.context_builder, 0, [], []⟩
        | some [] => ⟨.ok u.context_builder, 0, [], []⟩
        | some (tc :: _rest) =>
          match resolver tc with
          | .error e => ⟨.exn e u.context_builder, 0, [tc], []⟩
          | .ok result =>
            let u2 :=
              (((u.context_builder.add_message u.prompt_response.message).add_message
                  ⟨.tool, toolResponseOf result, .text⟩).send
                adapter u.system_message max_tokens u.tools)
            let out :=
              resolve_tool_calls_recursively resolver adapter tool_reprompt_death
                (max_tokens - u.prompt_response.token_usage) u2
            ⟨out.res, out.sends + 1, tc :: out.resolverLog,
              (max_tokens, u.prompt_response.token_usage,
                max_tokens - u.prompt_response.token_usage) :: out.chain⟩
      | .null => ⟨.exn nullStopMsg u.context_builder, 0, [], []⟩

/-- The recursive call a re-prompting step makes: one `send` on the history with the
provider message and the synthesized tool message appended (at the unchanged
`max_tokens`), recursed on with depth `n` and budget `b - token_usage`. -/
def recCall (resolver : ToolResolver) (adapter : ProviderAdapter) (n : Nat) (b : Int)
    (u : UnresolvedResponse) (result : Option String) : RecOut :=
  resolve_tool_calls_recursively resolver adapter n (b - u.prompt_response.token_usage)
    (((u.context_builder.add_message u.prompt_response.message).add_message
        ⟨.tool, toolResponseOf result, .text⟩).send adapter u.system_message b u.tools)

lemma rec_step (resolver : ToolResolver) (adapter : ProviderAdapter) (n : Nat) (b : Int)
    (u : UnresolvedResponse) (tc : ToolCall) (rest : List ToolCall) (result : Option String)
    (hb : ¬ b ≤ 0) (hs : u.prompt_response.stop_reason = StopReason.tool_calls)
    (hc : u.prompt_response.tool_calls = some (tc :: rest))
    (hr : resolver tc = .ok result) :
    resolve_tool_calls_recursively resolver adapter (n + 1) b u =
      ⟨(recCall resolver adapter n b u result).res,
        (recCall resolver adapter n b u result).sends + 1,
        tc :: (recCall resolver adapter n b u result).resolverLog,
        (b, u.prompt_response.token_usage, b - u.prompt_response.token_usage) ::
          (recCall resolver adapter n b u result).chain⟩ := by
  simp only [resolve_tool_calls_recursively, if_neg hb, hs, hc, hr, recCall]

/- ------------------------------------------------------------------
   Batch-loop lemmas
   ------------------------------------------------------------------ -/

/-- Spec-side: "concatenating each non-empty result followed by a newline", in
tool-call list order, assuming no resolver call raises. -/
def claimConcat (resolver : ToolResolver) : List ToolCall → String
  | [] => ""
  | tc :: rest =>
    (match resolver tc with
     | .ok (some s) => if s = "" then "" else s ++ "\n"
     | .ok none => ""
     | .error _ => "") ++ claimConcat resolver rest

lemma runBatch_error (resolver : ToolResolver) :
    ∀ (tcs : List ToolCall) (acc e : String) (log : List ToolCall),
      runBatch resolver tcs acc = (.error e, log) →
      ∃ tc ∈ tcs, resolver tc = .error e := by
  intro tcs
  induction tcs with
  | nil => intro acc e log h; simp [runBatch] at h
  | cons tc rest ih =>
    intro acc e log h
    cases hr : resolver tc with
    | error e2 =>
      simp only [runBatch, hr, Prod.mk.injEq, Except.error.injEq] at h
      exact ⟨tc, List.mem_cons_self tc rest, by rw [hr, h.1]⟩
    | ok result =>
      rcases hrb : runBatch resolver rest (truthyAppend acc result) with ⟨rb1, rb2⟩
      simp only [runBatch, hr, hrb, Prod.mk.injEq] at h
      obtain ⟨h1, h2⟩ := h
      rw [h1] at hrb
      obtain ⟨tc2, htc2, hre⟩ := ih (truthyAppend acc result) e rb2 hrb
      exact ⟨tc2, List.mem_cons_of_mem tc htc2, hre⟩

lemma runBatch_all_ok (resolver : ToolResolver) :
    ∀ (tcs : List ToolCall) (acc : String),
      (∀ tc ∈ tcs, ∃ r, resolver tc = .ok r) →
      runBatch resolver tcs acc = (.ok (acc ++ claimConcat resolver tcs), tcs) := by
  intro tcs
  induction tcs with
  | nil => intro acc h; simp [runBatch, claimConcat, String.append_empty]
  | cons tc rest ih =>
    intro acc hall
    obtain ⟨r, hr⟩ := hall tc (List.mem_cons_self tc rest)
    have hrest : ∀ tc2 ∈ rest, ∃ r2, resolver tc2 = .ok r2 :=
      fun tc2 h2 => hall tc2 (List.mem_cons_of_mem tc h2)
    cases r with
    | none =>
      simp only [runBatch, hr, ih (truthyAppend acc none) hrest]
      simp [claimConcat, hr, truthyAppend, String.empty_append]
    | some s =>
      by_cases hs : s = ""
      · simp only [runBatch, hr, ih (truthyAppend acc (some s)) hrest]
        simp [claimConcat, hr, truthyAppend, hs, String.empty_append]
      · simp only [runBatch, hr, ih (truthyAppend acc (some s)) hrest]
        simp [claimConcat, hr, truthyAppend, hs, String.append_assoc]

/- ------------------------------------------------------------------
   Claim theorems on the recursive resolver
   ------------------------------------------------------------------ -/

/-- Claim C2: for every initial depth, token budget, adapter behaviour and resolver
behaviour, `resolve_tool_calls_recursively` performs at most `depth` provider round
trips.  (Termination itself holds by construction: the model is total, by
structural recursion on the depth, mirroring the source's `tool_reprompt_death - 1`
at every recursive call.) -/
theorem c2_round_trip_bound (resolver : ToolResolver) (adapter : ProviderAdapter) :
    ∀ (d : Nat) (b : Int) (u : UnresolvedResponse),
      (resolve_tool_calls_recursively resolver adapter d b u).sends ≤ d := by
  intro d
  induction d with
  | zero => intro b u; simp [resolve_tool_calls_recursively]
  | succ n ih =>
    intro b u
    by_cases hb : b ≤ 0
    · simp [resolve_tool_calls_recursively, hb]
    · cases hs : u.prompt_response.stop_reason with
      | stop => simp [resolve_tool_calls_recursively, hb, hs]
      | length => simp [resolve_tool_calls_recursively, hb, hs]
      | content_filter => simp [resolve_tool_calls_recursively, hb, hs]
      | null => simp [resolve_tool_calls_recursively, hb, hs]
      | tool_calls =>
        cases hc : u.prompt_response.tool_calls with
        | none => simp [resolve_tool_calls_recursively, hb, hs, hc]
        | some tcs =>
          cases tcs with
          | nil => simp [resolve_tool_calls_recursively, hb, hs, hc]
          | cons tc rest =>
            cases hr : resolver tc with
            | error e => simp [resolve_tool_calls_recursively, hb, hs, hc, hr]
            | ok result =>
              rw [rec_step resolver adapter n b u tc rest result hb hs hc hr]
              exact Nat.succ_le_succ (ih _ _)

/-- Claim C3, counterexample: with exhausted depth (depth 0), a PendingReply whose
stop reason is `null` does NOT raise — the base case returns normally and appends
the provider message, so "for every depth and token-budget argument" is false. -/
theorem c3_depth_zero_counterexample :
    (resolve_tool_calls_recursively (fun _ => .error "boom")
        (fun _ _ _ _ => ⟨⟨.model, "done", .text⟩, .stop, 1, none⟩) 0 5
        ⟨⟨⟨.model, "m", .text⟩, .null, 1, none⟩, ⟨[⟨.user, "hi", .text⟩]⟩, none, "sys"⟩).res =
      PyOutcome.ok ⟨[⟨.user, "hi", .text⟩, ⟨.model, "m", .text⟩]⟩ := rfl

/-- Claim C3 (amended: restricted to positive remaining depth and positive token
budget, where the base case does not intervene): a PendingReply with stop reason
`null` makes `resolve_tool_calls_recursively` raise the contract-violation error,
with the history exactly as it was (no message appended), no provider round trip
and no resolver invocation. -/
theorem c3_null_stop_raises (resolver : ToolResolver) (adapter : ProviderAdapter)
    (d : Nat) (b : Int) (u : UnresolvedResponse)
    (hd : 0 < d) (hb : 0 < b)
    (hnull : u.prompt_response.stop_reason = StopReason.null) :
    resolve_tool_calls_recursively resolver adapter d b u =
      ⟨.exn nullStopMsg u.context_builder, 0, [], []⟩ := by
  obtain ⟨n, rfl⟩ : ∃ n, d = n + 1 := ⟨d - 1, by omega⟩
  have hb2 : ¬ b ≤ 0 := by omega
  simp [resolve_tool_calls_recursively, hb2, hnull]

/-- Claim C5, counterexample: a step whose reply has `token_usage = 0` performs a
round trip (`sends = 1`) yet passes the recursive call a budget EQUAL to its own
(the chain records entry budget 5, usage 0, passed budget 5), so "strictly less
whenever a round trip occurred" is false. -/
theorem c5_zero_usage_counterexample :
    (resolve_tool_calls_recursively (fun _ => .ok (some "R"))
        (fun _ _ _ _ => ⟨⟨.model, "done", .text⟩, .stop, 1, none⟩) 1 5
        ⟨⟨⟨.model, "m", .text⟩, .tool_calls, 0, some [⟨"1", "alpha", []⟩]⟩, ⟨[]⟩, none,
          "sys"⟩).sends = 1 ∧
    (resolve_tool_calls_recursively (fun _ => .ok (some "R"))
        (fun _ _ _ _ => ⟨⟨.model, "done", .text⟩, .stop, 1, none⟩) 1 5
        ⟨⟨⟨.model, "m", .text⟩, .tool_calls, 0, some [⟨"1", "alpha", []⟩]⟩, ⟨[]⟩, none,
          "sys"⟩).chain = [(5, 0, 5)] ∧
    ¬ ((5 : Int) < 5) := by
  refine ⟨rfl, rfl, by decide⟩

/-- Claim C5 (amended: the budget passed to each recursive step equals the caller's
budget minus the caller's `token_usage`, hence is strictly smaller exactly when
that `token_usage` is positive): every chain entry (entry budget, step usage,
passed budget) recorded at a round trip satisfies passed = entry - usage, and
passed < entry whenever the usage is positive. -/
theorem c5_budget_decrement (resolver : ToolResolver) (adapter : ProviderAdapter)
    (d : Nat) :
    ∀ (b : Int) (u : UnresolvedResponse) (t : Int × Int × Int),
      t ∈ (resolve_tool_calls_recursively resolver adapter d b u).chain →
      t.2.2 = t.1 - t.2.1 ∧ (0 < t.2.1 → t.2.2 < t.1) := by
  induction d with
  | zero =>
    intro b u t ht
    simp [resolve_tool_calls_recursively] at ht
  | succ n ih =>
    intro b u t ht
    by_cases hb : b ≤ 0
    · simp [resolve_tool_calls_recursively, hb] at ht
    · cases hs : u.prompt_response.stop_reason with
      | stop => simp [resolve_tool_calls_recursively, hb, hs] at ht
      | length => simp [resolve_tool_calls_recursively, hb, hs] at ht
      | content_filter => simp [resolve_tool_calls_recursively, hb, hs] at ht
      | null => simp [resolve_tool_calls_recursively, hb, hs] at ht
      | tool_calls =>
        cases hc : u.prompt_response.tool_calls with
        | none => simp [resolve_tool_calls_recursively, hb, hs, hc] at ht
        | some tcs =>
          cases tcs with
          | nil => simp [resolve_tool_calls_recursively, hb, hs, hc] at ht
          | cons tc rest =>
            cases hr : resolver tc with
            | error e => simp [resolve_tool_calls_recursively, hb, hs, hc, hr] at ht
            | ok result =>
              rw [rec_step resolver adapter n b u tc rest result hb hs hc hr] at ht
              have ht2 : t = (b, u.prompt_response.token_usage,
                    b - u.prompt_response.token_usage) ∨
                  t ∈ (recCall resolver adapter n b u result).chain :=
                List.mem_cons.mp ht
              rcases ht2 with rfl | ht2
              · refine ⟨rfl, fun hpos => ?_⟩
                have hpos2 : 0 < u.prompt_response.token_usage := hpos
                show b - u.prompt_response.token_usage < b
                omega
              · exact ih _ _ _ ht2

/-- Claim C6: a PendingReply with stop reason `tool_calls` but an absent (`None`)
or empty tool-call list, at positive remaining depth and positive budget, returns
the history unchanged: the provider message is NOT appended, nothing else is
appended, no provider round trip is made and the resolver is never invoked. -/
theorem c6_empty_tool_calls_frame (resolver : ToolResolver) (adapter : ProviderAdapter)
    (d : Nat) (b : Int) (u : UnresolvedResponse)
    (hd : 0 < d) (hb : 0 < b)
    (hs : u.prompt_response.stop_reason = StopReason.tool_calls)
    (hc : u.prompt_response.tool_calls = none ∨ u.prompt_response.tool_calls = some []) :
    resolve_tool_calls_recursively resolver adapter d b u =
      ⟨.ok u.context_builder, 0, [], []⟩ := by
  obtain ⟨n, rfl⟩ : ∃ n, d = n + 1 := ⟨d - 1, by omega⟩
  have hb2 : ¬ b ≤ 0 := by omega
  rcases hc with hc | hc <;> simp [resolve_tool_calls_recursively, hb2, hs, hc]

/-- Claim C7: a PendingReply with a terminal stop reason (`stop`, `length` or
`content_filter`), at positive remaining depth and positive budget, returns the
history with exactly the provider message appended, makes zero further provider
round trips, and never invokes the tool resolver. -/
theorem c7_terminal_stop (resolver : ToolResolver) (adapter : ProviderAdapter)
    (d : Nat) (b : Int) (u : UnresolvedResponse)
    (hd : 0 < d) (hb : 0 < b)
    (hs : u.prompt_response.stop_reason = StopReason.stop ∨
      u.prompt_response.stop_reason = StopReason.length ∨
      u.prompt_response.stop_reason = StopReason.content_filter) :
    resolve_tool_calls_recursively resolver adapter d b u =
      ⟨.ok (u.context_builder.add_message u.prompt_response.message), 0, [], []⟩ := by
  obtain ⟨n, rfl⟩ : ∃ n, d = n + 1 := ⟨d - 1, by omega⟩
  have hb2 : ¬ b ≤ 0 := by omega
  rcases hs with hs | hs | hs <;> simp [resolve_tool_calls_recursively, hb2, hs]

/- ------------------------------------------------------------------
   Claim theorems on the single-pass resolver
   ------------------------------------------------------------------ -/

/-- Claim C4 (history effects; the source method itself ends with `return self`,
returning the UnresolvedResponse instead of the ContextBuilder its own annotation
declares — see the results): with a present tool-call list, `resolve_tool_calls`
appends the provider message; only when the stop reason is NOT `tool_calls` does
it invoke the resolver on each call in list order (`resolverLog = tcs`),
concatenating each non-empty result followed by a newline; it then appends exactly
one tool-role message holding the accumulated (possibly empty) text. -/
theorem c4_resolve_tool_calls_effects (resolver : ToolResolver) (u : UnresolvedResponse)
    (tcs : List ToolCall) (hc : u.prompt_response.tool_calls = some tcs) :
    (u.prompt_response.stop_reason ≠ StopReason.tool_calls →
      (∀ tc ∈ tcs, ∃ r, resolver tc = .ok r) →
      resolve_tool_calls resolver u =
        ⟨.ok ((u.context_builder.add_message u.prompt_response.message).add_message
          ⟨.tool, claimConcat resolver tcs, .text⟩), tcs⟩) ∧
    (u.prompt_response.stop_reason = StopReason.tool_calls →
      resolve_tool_calls resolver u =
        ⟨.ok ((u.context_builder.add_message u.prompt_response.message).add_message
          ⟨.tool, "", .text⟩), []⟩) := by
  constructor
  · intro hstop hall
    simp [resolve_tool_calls, hc, hstop, runBatch_all_ok resolver tcs "" hall,
      String.empty_append]
  · intro hstop
    simp [resolve_tool_calls, hstop]

/-- Claim C8: a raising tool resolver propagates its error unchanged, and the
history is exactly as it was before the failing resolver call, with no (partial)
tool-role message appended for the batch.  First conjunct: in `resolve_tool_calls`
(with a present tool-call list) an escaping exception leaves the history at
exactly the provider message append, and the exception is one some resolver call
produced.  Second conjunct: in a `resolve_tool_calls_recursively` step whose first
batched call raises, the exception escapes with the history exactly as at entry
(the step appends nothing, performs no round trip). -/
theorem c8_resolver_error_propagation :
    (∀ (resolver : ToolResolver) (u : UnresolvedResponse) (tcs : List ToolCall)
        (e : String) (h : ContextBuilder),
        u.prompt_response.tool_calls = some tcs →
        (resolve_tool_calls resolver u).res = .exn e h →
        h = u.context_builder.add_message u.prompt_response.message ∧
        ∃ tc ∈ tcs, resolver tc = .error e) ∧
    (∀ (resolver : ToolResolver) (adapter : ProviderAdapter) (n : Nat) (b : Int)
        (u : UnresolvedResponse) (tc : ToolCall) (rest : List ToolCall) (e : String),
        0 < b →
        u.prompt_response.stop_reason = StopReason.tool_calls →
        u.prompt_response.tool_calls = some (tc :: rest) →
        resolver tc = .error e →
        resolve_tool_calls_recursively resolver adapter (n + 1) b u =
          ⟨.exn e u.context_builder, 0, [tc], []⟩) := by
  constructor
  · intro resolver u tcs e h hc hres
    by_cases hstop : u.prompt_response.stop_reason = StopReason.tool_calls
    · simp [resolve_tool_calls, hstop] at hres
    · rcases hrb : runBatch resolver tcs "" with ⟨rb1, rb2⟩
      cases rb1 with
      | error e2 =>
        simp only [resolve_tool_calls, hstop, hc, hrb, ne_eq, not_false_iff, if_true,
          PyOutcome.exn.injEq] at hres
        obtain ⟨he, hh⟩ := hres
        refine ⟨hh.symm, ?_⟩
        obtain ⟨tc, htc, hre⟩ := runBatch_error resolver tcs "" e2 rb2 hrb
        exact ⟨tc, htc, he ▸ hre⟩
      | ok s =>
        simp [resolve_tool_calls, hstop, hc, hrb] at hres
  · intro resolver adapter n b u tc rest e hb hs hc hr
    have hb2 : ¬ b ≤ 0 := by omega
    simp [resolve_tool_calls_recursively, hb2, hs, hc, hr]

/-- Claim C9: with an absent (`None`) tool-call list and a stop reason other than
`tool_calls`, `resolve_tool_calls` raises the `TypeError` from iterating `None`;
at that point the provider message has already been appended and no tool-role
message has been appended, and the resolver was never invoked. -/
theorem c9_none_tool_calls_raises (resolver : ToolResolver) (u : UnresolvedResponse)
    (hstop : u.prompt_response.stop_reason ≠ StopReason.tool_calls)
    (hc : u.prompt_response.tool_calls = none) :
    resolve_tool_calls resolver u =
      ⟨.exn typeErrorMsg (u.context_builder.add_message u.prompt_response.message),
        []⟩ := by
  simp [resolve_tool_calls, hstop, hc]

/- ------------------------------------------------------------------
   Concrete fixtures and witnesses
   ------------------------------------------------------------------ -/

def mUser : Message := ⟨.user, "hi", .text⟩

def mModel : Message := ⟨.model, "m", .text⟩

def tcA : ToolCall := ⟨"1", "alpha", []⟩

def tcB : ToolCall := ⟨"2", "beta", []⟩

/-- A resolver returning the text "R" for every call. -/
def trivialResolver : ToolResolver := fun _ => .ok (some "R")

/-- A resolver that raises on every call. -/
def failResolver : ToolResolver := fun _ => .error "boom"

/-- A resolver returning "A" for `tcA` and `None` for everything else. -/
def resAB : ToolResolver := fun tc => if tc.id = "1" then .ok (some "A") else .ok none

/-- An adapter that always replies with a terminal `stop` response. -/
def stopAdapter : ProviderAdapter :=
  fun _ _ _ _ => ⟨⟨.model, "done", .text⟩, .stop, 1, none⟩

def uNull : UnresolvedResponse := ⟨⟨mModel, .null, 1, none⟩, ⟨[mUser]⟩, none, "sys"⟩

def u4 : UnresolvedResponse := ⟨⟨mModel, .stop, 1, some [tcA, tcB]⟩, ⟨[]⟩, none, "sys"⟩

def uTc : UnresolvedResponse :=
  ⟨⟨mModel, .tool_calls, 2, some [tcA]⟩, ⟨[]⟩, none, "sys"⟩

def u6 : UnresolvedResponse := ⟨⟨mModel, .tool_calls, 1, none⟩, ⟨[mUser]⟩, none, "sys"⟩

def u7 : UnresolvedResponse := ⟨⟨mModel, .length, 1, none⟩, ⟨[mUser]⟩, none, "sys"⟩

def uA : UnresolvedResponse := ⟨⟨mModel, .stop, 1, some [tcA]⟩, ⟨[mUser]⟩, none, "sys"⟩

def uB : UnresolvedResponse :=
  ⟨⟨mModel, .tool_calls, 1, some [tcA]⟩, ⟨[mUser]⟩, none, "sys"⟩

def u9 : UnresolvedResponse := ⟨⟨mModel, .stop, 1, none⟩, ⟨[mUser]⟩, none, "sys"⟩

/-- Witness for claim C3's theorem at depth 1, budget 5, on a `null`-stop reply. -/
theorem c3_null_stop_raises_witness :
    resolve_tool_calls_recursively failResolver stopAdapter 1 5 uNull =
      ⟨.exn nullStopMsg uNull.context_builder, 0, [], []⟩ :=
  c3_null_stop_raises failResolver stopAdapter 1 5 uNull (by decide) (by decide) rfl

/-- Witness for claim C4's theorem on a two-call batch whose resolver returns "A"
then `None`: one tool message with content "A\n" is appended, after the provider
message, with the resolver invoked on both calls in order. -/
theorem c4_resolve_tool_calls_effects_witness :
    resolve_tool_calls resAB u4 =
      ⟨.ok ((u4.context_builder.add_message u4.prompt_response.message).add_message
        ⟨.tool, claimConcat resAB [tcA, tcB], .text⟩), [tcA, tcB]⟩ ∧
    claimConcat resAB [tcA, tcB] = "A\n" :=
  ⟨(c4_resolve_tool_calls_effects resAB u4 [tcA, tcB] rfl).1 (by decide)
      (by
        intro tc htc
        simp only [List.mem_cons, List.not_mem_nil, or_false] at htc
        rcases htc with rfl | rfl
        · exact ⟨some "A", rfl⟩
        · exact ⟨none, rfl⟩),
    by decide⟩

/-- Witness for claim C5's theorem: on a step with entry budget 5 and usage 2, the
chain records the passed budget 3 = 5 - 2, strictly below 5. -/
theorem c5_budget_decrement_witness :
    ((5 : Int), (2 : Int), (3 : Int)) ∈
      (resolve_tool_calls_recursively trivialResolver stopAdapter 1 5 uTc).chain ∧
    ((3 : Int) = 5 - 2 ∧ (0 < (2 : Int) → (3 : Int) < 5)) :=
  ⟨by decide,
    c5_budget_decrement trivialResolver stopAdapter 1 5 uTc (5, 2, 3) (by decide)⟩

/-- Witness for claim C6's theorem on a `tool_calls`-stop reply with absent list. -/
theorem c6_empty_tool_calls_frame_witness :
    resolve_tool_calls_recursively trivialResolver stopAdapter 1 1 u6 =
      ⟨.ok u6.context_builder, 0, [], []⟩ :=
  c6_empty_tool_calls_frame trivialResolver stopAdapter 1 1 u6 (by decide) (by decide)
    rfl (Or.inl rfl)

/-- Witness for claim C7's theorem on a `length`-stop reply. -/
theorem c7_terminal_stop_witness :
    resolve_tool_calls_recursively trivialResolver stopAdapter 2 9 u7 =
      ⟨.ok (u7.context_builder.add_message u7.prompt_response.message), 0, [], []⟩ :=
  c7_terminal_stop trivialResolver stopAdapter 2 9 u7 (by decide) (by decide)
    (Or.inr (Or.inl rfl))

/-- Witness for claim C8's theorem, both conjuncts, with the always-raising
resolver: in the single pass the exception escapes with exactly the provider
message appended; in the recursive step nothing is appended at all. -/
theorem c8_resolver_error_propagation_witness :
    ((⟨[mUser, mModel]⟩ : ContextBuilder) =
        uA.context_builder.add_message uA.prompt_response.message ∧
      ∃ tc ∈ [tcA], failResolver tc = Except.error "boom") ∧
    resolve_tool_calls_recursively failResolver stopAdapter 2 5 uB =
      ⟨.exn "boom" uB.context_builder, 0, [tcA], []⟩ :=
  ⟨c8_resolver_error_propagation.1 failResolver uA [tcA] "boom" ⟨[mUser, mModel]⟩
      rfl rfl,
    c8_resolver_error_propagation.2 failResolver stopAdapter 1 5 uB tcA [] "boom"
      (by decide) rfl rfl rfl⟩

/-- Witness for claim C9's theorem on a `stop` reply with `tool_calls = None`. -/
theorem c9_none_tool_calls_raises_witness :
    resolve_tool_calls trivialResolver u9 =
      ⟨.exn typeErrorMsg (u9.context_builder.add_message u9.prompt_response.message),
        []⟩ :=
  c9_none_tool_calls_raises trivialResolver u9 (by decide) rfl

end Steelwool
